import Mathlib

/-!
# Verification of the PosturePal posture-analysis core

Shallow embedding of `src/pages/Analysis.tsx` (posture scoring, issue
detection, per-frame sampling, session lifecycle) and of the statistics
aggregator (`fetchStats` in the Stats page), together with theorems that
settle the specification claims.

Modelling conventions:
* JS numbers are modelled as real numbers (`ℝ`); the geometry of the source
  (`Math.sqrt`, `Math.acos`, `Math.PI`) is modelled by `Real.sqrt`,
  `Real.arccos`, `Real.pi`.
* A JS division whose divisor is `0` yields a non-finite number
  (`Infinity`, `-Infinity` or `NaN`); non-finite results are modelled as
  `none : Option ℝ`, finite numbers as `some r`.
* `Math.round` rounds half toward positive infinity, which is exactly
  Mathlib's `round` (`⌊x + 1/2⌋`).
* The asynchronous per-frame loop is modelled as a state-transition
  function: each invocation of `detectPose` becomes one application of
  `detectPoseTick` to an explicit application state, with the externally
  supplied inputs (detected pose, authenticated user, success of the store
  insert, current clock) passed as arguments.
-/

namespace PosturePal

open Classical

/-- A named 2D keypoint produced by the pose-estimation model
(`poseDetection.Keypoint`): coordinates plus an optional confidence score. -/
structure Keypoint where
  name : String
  x : ℝ
  y : ℝ
  score : Option ℝ

/-- Embeds `keypoints.find(kp => kp.name === name)` — first keypoint with the
given name, if any. -/
def findKp (keypoints : List Keypoint) (name : String) : Option Keypoint :=
  keypoints.find? (fun kp => kp.name == name)

/-- Function `distance2D` from the source: Euclidean distance
`Math.sqrt((x2 - x1) ** 2 + (y2 - y1) ** 2)`. -/
noncomputable def distance2D (x1 y1 x2 y2 : ℝ) : ℝ :=
  Real.sqrt ((x2 - x1) ^ 2 + (y2 - y1) ^ 2)

/-- Function `angleABC` from the source: the angle at vertex `B` between rays `B→A`
and `B→C`, in degrees.  If either ray has zero magnitude the source returns
`180`; otherwise the cosine is clamped to `[-1, 1]` and
`(Math.acos(cosTheta) * 180) / Math.PI` is returned. -/
noncomputable def angleABC (Ax Ay Bx By Cx Cy : ℝ) : ℝ :=
  let ABx := Ax - Bx
  let ABy := Ay - By
  let CBx := Cx - Bx
  let CBy := Cy - By
  let dot := ABx * CBx + ABy * CBy
  let magAB := Real.sqrt (ABx ^ 2 + ABy ^ 2)
  let magCB := Real.sqrt (CBx ^ 2 + CBy ^ 2)
  if magAB = 0 ∨ magCB = 0 then 180
  else
    let cosTheta := min (max (dot / (magAB * magCB)) (-1)) 1
    (Real.arccos cosTheta * 180) / Real.pi

/-- JS floating-point division with finite operands: the quotient is finite
when the divisor is nonzero, and non-finite (`Infinity`, `-Infinity` or
`NaN`, all modelled as `none`) when the divisor is zero.  The source
performs `distNoseShoulders / shoulderWidth` with no guard. -/
noncomputable def jsDiv (a b : ℝ) : Option ℝ :=
  if b = 0 then none else some (a / b)

/-- Function `extractFeatures` from the source: looks up the five required joints;
if any is absent returns the zero sentinel `[0,0,0,0,0,0,0]`, otherwise
the 7-feature vector.  Entries are `Option ℝ` because the ratio entry is a
JS division that can be non-finite. -/
noncomputable def extractFeatures (keypoints : List Keypoint) : List (Option ℝ) :=
  match findKp keypoints "nose", findKp keypoints "left_shoulder",
        findKp keypoints "right_shoulder", findKp keypoints "left_ear",
        findKp keypoints "right_ear" with
  | some nose, some leftShoulder, some rightShoulder, some leftEar, some rightEar =>
    let midShoulderX := (leftShoulder.x + rightShoulder.x) / 2
    let midShoulderY := (leftShoulder.y + rightShoulder.y) / 2
    let distNoseShoulders := distance2D nose.x nose.y midShoulderX midShoulderY
    let shoulderWidth := distance2D leftShoulder.x leftShoulder.y rightShoulder.x rightShoulder.y
    let ratioVal := jsDiv distNoseShoulders shoulderWidth
    let neckTiltAngle := angleABC leftEar.x leftEar.y nose.x nose.y rightEar.x rightEar.y
    let distLeftEarNose := distance2D leftEar.x leftEar.y nose.x nose.y
    let distRightEarNose := distance2D rightEar.x rightEar.y nose.x nose.y
    let angleLeftShoulder := angleABC leftEar.x leftEar.y leftShoulder.x leftShoulder.y nose.x nose.y
    let angleRightShoulder := angleABC rightEar.x rightEar.y rightShoulder.x rightShoulder.y nose.x nose.y
    [some distNoseShoulders, ratioVal, some neckTiltAngle, some distLeftEarNose,
     some distRightEarNose, some angleLeftShoulder, some angleRightShoulder]
  | _, _, _, _, _ => [some 0, some 0, some 0, some 0, some 0, some 0, some 0]

/-- The record returned by `analyzePosture`.  The four issue flags are the
comparison results computed by the source; the three angles are reported
unconditionally. -/
structure IssueReport where
  headTilt : Prop
  shouldersUneven : Prop
  headTooLow : Prop
  headTooForward : Prop
  neckTiltAngle : ℝ
  leftShoulderAngle : ℝ
  rightShoulderAngle : ℝ

/-- Function `analyzePosture` from the source: threshold rules on the five required
keypoints; the all-false / zero report when any of them is missing. -/
noncomputable def analyzePosture (keypoints : List Keypoint) : IssueReport :=
  match findKp keypoints "nose", findKp keypoints "left_shoulder",
        findKp keypoints "right_shoulder", findKp keypoints "left_ear",
        findKp keypoints "right_ear" with
  | some nose, some leftShoulder, some rightShoulder, some leftEar, some rightEar =>
    let shoulderWidth := distance2D leftShoulder.x leftShoulder.y rightShoulder.x rightShoulder.y
    let headHeight := distance2D nose.x nose.y ((leftShoulder.x + rightShoulder.x) / 2)
      ((leftShoulder.y + rightShoulder.y) / 2)
    let earHeightDiff := |leftEar.y - rightEar.y|
    let shoulderHeightDiff := |leftShoulder.y - rightShoulder.y|
    let headTooLowThresh := shoulderWidth * 0.6
    let headTooFarThresh := shoulderWidth * 1.2
    let earLevelThresh := (15 : ℝ)
    let shoulderLevelThresh := (20 : ℝ)
    { headTilt := earHeightDiff > earLevelThresh
      shouldersUneven := shoulderHeightDiff > shoulderLevelThresh
      headTooLow := headHeight < headTooLowThresh
      headTooForward := headHeight > headTooFarThresh
      neckTiltAngle := angleABC leftEar.x leftEar.y nose.x nose.y rightEar.x rightEar.y
      leftShoulderAngle := angleABC leftEar.x leftEar.y leftShoulder.x leftShoulder.y nose.x nose.y
      rightShoulderAngle := angleABC rightEar.x rightEar.y rightShoulder.x rightShoulder.y nose.x nose.y }
  | _, _, _, _, _ =>
    { headTilt := False
      shouldersUneven := False
      headTooLow := False
      headTooForward := False
      neckTiltAngle := 0
      leftShoulderAngle := 0
      rightShoulderAngle := 0 }

/-- A raw coordinate record `{x, y, score}` as produced by `getKeypoint`
inside `extractPositions`. -/
structure Point where
  x : ℝ
  y : ℝ
  score : Option ℝ

/-- The `shoulders` field of a `PositionData`. -/
structure ShoulderPair where
  left : Option Point
  right : Option Point

/-- The `spine` field of a `PositionData`. -/
structure SpinePair where
  top : Option Point
  bottom : Option Point

/-- Type `PositionData` from `types/database`: the persistence-oriented snapshot
built by `extractPositions`. -/
structure PositionData where
  head : Option Point
  shoulders : ShoulderPair
  spine : SpinePair

/-- The `getKeypoint` helper inside `extractPositions`: look a joint up by
name and keep its raw coordinates, or `null`. -/
def getKeypoint (keypoints : List Keypoint) (name : String) : Option Point :=
  match findKp keypoints name with
  | some kp => some ⟨kp.x, kp.y, kp.score⟩
  | none => none

/-- Function `extractPositions` from the source.  Note that the spine fields look up
the literal names `"shoulders"` and `"hips"`. -/
def extractPositions (keypoints : List Keypoint) : PositionData :=
  { head := getKeypoint keypoints "nose"
    shoulders :=
      { left := getKeypoint keypoints "left_shoulder"
        right := getKeypoint keypoints "right_shoulder" }
    spine :=
      { top := getKeypoint keypoints "shoulders"
        bottom := getKeypoint keypoints "hips" } }

/-- Embeds `Math.round`: rounds half toward positive infinity, which is Mathlib's
`round` (`⌊x + 1/2⌋`). -/
noncomputable def jsRound (x : ℝ) : ℤ :=
  round x

/-- The score computation inside `detectPose`:
`Math.round(prediction.dataSync()[0] * 100)` where the prediction comes
from feeding `extractFeatures(pose.keypoints)` to the loaded model.  The
model is external, so it is a parameter `predict`; the source applies no
clamping and no special case for missing keypoints. -/
noncomputable def computeScore (predict : List (Option ℝ) → ℝ)
    (keypoints : List Keypoint) : ℤ :=
  jsRound (predict (extractFeatures keypoints) * 100)

/-- A row of the `posture_measurements` table
(`PostureMeasurementInsert` plus the store-assigned `created_at`, which at
insert time equals the inserting tick's clock value). -/
structure Measurement where
  sessionId : String
  userId : String
  createdAt : ℤ
  postureScore : ℤ
  headPosition : Option Point
  shoulderPosition : ShoulderPair
  spineAlignment : SpinePair
  headTiltDetected : Prop
  shouldersUneven : Prop
  headTooLow : Prop
  headTooForward : Prop
  neckTiltAngle : ℝ
  shoulderAngles : ℝ × ℝ

/-- The `measurement` object literal built inside `saveMeasurement`. -/
def mkMeasurement (sid uid : String) (now : ℤ) (score : ℤ)
    (positions : PositionData) (issues : IssueReport) : Measurement :=
  { sessionId := sid
    userId := uid
    createdAt := now
    postureScore := score
    headPosition := positions.head
    shoulderPosition := positions.shoulders
    spineAlignment := positions.spine
    headTiltDetected := issues.headTilt
    shouldersUneven := issues.shouldersUneven
    headTooLow := issues.headTooLow
    headTooForward := issues.headTooForward
    neckTiltAngle := issues.neckTiltAngle
    shoulderAngles := (issues.leftShoulderAngle, issues.rightShoulderAngle) }

/-- The `setPostureIssues` argument: `Object.entries(issues)` filtered to the
entries whose value is `=== true`, keys split on capitals
(`"headTilt" → "head Tilt"`), in the enumeration order of the object. -/
noncomputable def issueNames (issues : IssueReport) : List String :=
  (if issues.headTilt then ["head Tilt"] else []) ++
  (if issues.shouldersUneven then ["shoulders Uneven"] else []) ++
  (if issues.headTooLow then ["head Too Low"] else []) ++
  (if issues.headTooForward then ["head Too Forward"] else [])

/-- A row of the `posture_sessions` table. -/
structure Session where
  id : String
  userId : String
  isActive : Bool
  endedAt : Option ℤ

/-- The component state of the Analysis page: the React state hooks
(`isAnalyzing`, `sessionId`, `currentScore`, `postureIssues`) plus the two
backing store tables and the console error log. -/
structure AppState where
  isAnalyzing : Bool
  sessionId : Option String
  currentScore : Option ℤ
  postureIssues : List String
  measurements : List Measurement
  sessions : List Session
  errorLog : List String

/-- Function `saveMeasurement` from the source.  Early-returns when no session id is
tracked or no authenticated user is available.  Otherwise attempts the
insert; on success (`insertOk`) the row is appended and the live score and
issue list are updated; on failure the error is caught and logged and
nothing else happens. -/
noncomputable def saveMeasurement (s : AppState) (user : Option String)
    (insertOk : Bool) (now : ℤ) (score : ℤ) (positions : PositionData)
    (issues : IssueReport) : AppState :=
  match s.sessionId with
  | none => s
  | some sid =>
    match user with
    | none => s
    | some uid =>
      if insertOk then
        { s with
          measurements :=
            s.measurements ++ [mkMeasurement sid uid now score positions issues]
          currentScore := some score
          postureIssues := issueNames issues }
      else
        { s with errorLog := s.errorLog ++ ["Error saving measurement"] }

/-- One invocation of the `detectPose` frame callback, restricted to its
state-relevant part.  `pose` is `some keypoints` when
`poses.length > 0` (then `pose.keypoints` is that list), `none` otherwise.
Scoring, issue analysis and `saveMeasurement` run only when `isAnalyzing`
is set; there is no elapsed-time check of any kind. -/
noncomputable def detectPoseTick (predict : List (Option ℝ) → ℝ)
    (s : AppState) (pose : Option (List Keypoint)) (user : Option String)
    (insertOk : Bool) (now : ℤ) : AppState :=
  match pose with
  | none => s
  | some keypoints =>
    if s.isAnalyzing then
      let positions := extractPositions keypoints
      let score := computeScore predict keypoints
      let issues := analyzePosture keypoints
      saveMeasurement s user insertOk now score positions issues
    else s

/-- Function `stopSession` from the source: early-returns when no session id is
tracked; otherwise updates the session row (`ended_at`, `is_active=false`)
and on success clears `isAnalyzing` and `sessionId`; an update error is
caught and logged with no state change. -/
def stopSession (s : AppState) (updateOk : Bool) (now : ℤ) : AppState :=
  match s.sessionId with
  | none => s
  | some sid =>
    if updateOk then
      { s with
        sessions := s.sessions.map (fun r =>
          if r.id = sid then { r with endedAt := some now, isActive := false } else r)
        isAnalyzing := false
        sessionId := none }
    else
      { s with errorLog := s.errorLog ++ ["Error ending session"] }

/-- One bar of the statistics page: `StatsData` from the source. -/
structure StatsData where
  date : String
  averageScore : ℤ
  sessionCount : ℕ
deriving DecidableEq

/-- One step of the `reduce` that groups measurements by date:
`if (!acc[date]) acc[date] = []; acc[date].push(score)`.  A JS object with
non-integer string keys enumerates in insertion order, so it is an
association list: an existing bucket is extended in place, a new one is
appended at the end. -/
def addScore (acc : List (String × List ℤ)) (date : String) (score : ℤ) :
    List (String × List ℤ) :=
  if acc.any (fun p => p.1 == date) then
    acc.map (fun p => if p.1 == date then (p.1, p.2 ++ [score]) else p)
  else acc ++ [(date, [score])]

/-- The `groupedData` reduce in `fetchStats`: the measurements (each reduced to its
local-date string and `posture_score`) folded into date buckets. -/
def groupByDate (ms : List (String × ℤ)) : List (String × List ℤ) :=
  ms.foldl (fun acc m => addScore acc m.1 m.2) []

/-- The aggregation step of `fetchStats`: for each date bucket, the rounded mean of
the scores and the number of measurements in the bucket. -/
def fetchStats (ms : List (String × ℤ)) : List StatsData :=
  (groupByDate ms).map (fun p =>
    { date := p.1
      averageScore := round ((p.2.sum : ℚ) / (p.2.length : ℚ))
      sessionCount := p.2.length })

/-- A five-keypoint frame with a shoulder-height difference of 25 pixels
(left shoulder at y = 0, right shoulder at y = 25). -/
noncomputable def exDiff25 : List Keypoint :=
  [⟨"nose", 50, 80, none⟩, ⟨"left_shoulder", 0, 0, none⟩,
   ⟨"right_shoulder", 100, 25, none⟩, ⟨"left_ear", 30, 80, none⟩,
   ⟨"right_ear", 70, 80, none⟩]

/-- A five-keypoint frame with a shoulder-height difference of 15 pixels. -/
noncomputable def exDiff15 : List Keypoint :=
  [⟨"nose", 50, 80, none⟩, ⟨"left_shoulder", 0, 0, none⟩,
   ⟨"right_shoulder", 100, 15, none⟩, ⟨"left_ear", 30, 80, none⟩,
   ⟨"right_ear", 70, 80, none⟩]

/-- A five-keypoint frame using the standard MoveNet joint names, with both
shoulders and both hips present. -/
noncomputable def exStandardNames : List Keypoint :=
  [⟨"nose", 50, 80, none⟩, ⟨"left_shoulder", 0, 100, none⟩,
   ⟨"right_shoulder", 100, 100, none⟩, ⟨"left_ear", 30, 80, none⟩,
   ⟨"right_ear", 70, 80, none⟩, ⟨"left_hip", 0, 300, none⟩,
   ⟨"right_hip", 100, 300, none⟩]

/-- An idle application state (nothing analyzing, no tracked session). -/
def exIdleState : AppState :=
  { isAnalyzing := false
    sessionId := none
    currentScore := none
    postureIssues := []
    measurements := []
    sessions := []
    errorLog := [] }

/-- An active-session application state with an empty measurement store. -/
def exActiveState : AppState :=
  { isAnalyzing := true
    sessionId := some "s1"
    currentScore := none
    postureIssues := []
    measurements := []
    sessions := [⟨"s1", "u1", true, none⟩]
    errorLog := [] }

/-- The measurement list of the aggregation example: scores 80 and 60 on
date `D1`, score 100 on date `D2`. -/
def exMs : List (String × ℤ) :=
  [("D1", 80), ("D1", 60), ("D2", 100)]

/-- A five-keypoint frame whose shoulders coincide (both at the origin), so
the shoulder width is zero. -/
noncomputable def exCoincident : List Keypoint :=
  [⟨"nose", 3, 4, none⟩, ⟨"left_shoulder", 0, 0, none⟩,
   ⟨"right_shoulder", 0, 0, none⟩, ⟨"left_ear", 1, 1, none⟩,
   ⟨"right_ear", 2, 2, none⟩]

/-- Claim C9: invoking the stop transition when no session id is tracked is
a no-op — no store mutation, no exception, all session and sampling state
unchanged. -/
theorem stopSession_no_session_noop (s : AppState) (updateOk : Bool) (now : ℤ)
    (h : s.sessionId = none) : stopSession s updateOk now = s := by
  unfold stopSession
  rw [h]

/-- Witness for C9 at a concrete idle state. -/
theorem stopSession_no_session_noop_witness :
    stopSession exIdleState true 5 = exIdleState :=
  stopSession_no_session_noop exIdleState true 5 rfl

/-- Claim C8: a measurement row is inserted only while a session is active —
if no session id is tracked or the analyzing flag is off, a frame tick
leaves the measurement store unchanged. -/
theorem no_insert_without_active_session (predict : List (Option ℝ) → ℝ)
    (s : AppState) (pose : Option (List Keypoint)) (user : Option String)
    (insertOk : Bool) (now : ℤ)
    (h : s.sessionId = none ∨ s.isAnalyzing = false) :
    (detectPoseTick predict s pose user insertOk now).measurements =
      s.measurements := by
  unfold detectPoseTick
  cases pose with
  | none => rfl
  | some keypoints =>
    rcases h with h | h
    · by_cases ha : s.isAnalyzing
      · simp only [ha, if_true]
        unfold saveMeasurement
        rw [h]
      · simp [ha]
    · simp [h]

/-- Witness for C8: with the analyzing flag on but no tracked session id,
a tick with a detected pose inserts nothing. -/
theorem no_insert_without_active_session_witness :
    (detectPoseTick (fun _ => 0)
        { exActiveState with sessionId := none } (some []) (some "u1") true 0).measurements =
      ({ exActiveState with sessionId := none } : AppState).measurements :=
  no_insert_without_active_session (fun _ => 0)
    { exActiveState with sessionId := none } (some []) (some "u1") true 0
    (Or.inl rfl)

/-- Claim C10: when no keypoint is literally named `"shoulders"` and none is
named `"hips"`, the snapshot's spine fields are both `null`, even if the
shoulders and hips are present under their standard names. -/
theorem extractPositions_spine_always_null (keypoints : List Keypoint)
    (h1 : ∀ kp ∈ keypoints, kp.name ≠ "shoulders")
    (h2 : ∀ kp ∈ keypoints, kp.name ≠ "hips") :
    (extractPositions keypoints).spine.top = none ∧
      (extractPositions keypoints).spine.bottom = none := by
  have e1 : findKp keypoints "shoulders" = none :=
    List.find?_eq_none.mpr (fun kp hm => by simpa using h1 kp hm)
  have e2 : findKp keypoints "hips" = none :=
    List.find?_eq_none.mpr (fun kp hm => by simpa using h2 kp hm)
  constructor
  · show (getKeypoint keypoints "shoulders") = none
    unfold getKeypoint
    rw [e1]
  · show (getKeypoint keypoints "hips") = none
    unfold getKeypoint
    rw [e2]

/-- Witness for C10 on a frame holding both shoulders and both hips under
their standard MoveNet names. -/
theorem extractPositions_spine_always_null_witness :
    (extractPositions exStandardNames).spine.top = none ∧
      (extractPositions exStandardNames).spine.bottom = none :=
  extractPositions_spine_always_null exStandardNames
    (by
      intro kp hm
      simp only [exStandardNames, List.mem_cons, List.not_mem_nil, or_false] at hm
      rcases hm with rfl | rfl | rfl | rfl | rfl | rfl | rfl <;> simp)
    (by
      intro kp hm
      simp only [exStandardNames, List.mem_cons, List.not_mem_nil, or_false] at hm
      rcases hm with rfl | rfl | rfl | rfl | rfl | rfl | rfl <;> simp)

/-- Degrees computed from an arccosine always land in `[0, 180]`. -/
theorem arccosDeg_bounds (c : ℝ) :
    0 ≤ Real.arccos c * 180 / Real.pi ∧ Real.arccos c * 180 / Real.pi ≤ 180 := by
  constructor
  · exact div_nonneg (mul_nonneg (Real.arccos_nonneg c) (by norm_num)) Real.pi_pos.le
  · rw [div_le_iff₀ Real.pi_pos]
    nlinarith [Real.arccos_le_pi c, Real.pi_pos]

/-- Claim C6: `angleABC` always returns a value in `[0, 180]` degrees, and
whenever `A` coincides with the vertex `B` or `C` coincides with `B` (a
zero-length ray) it returns exactly `180`. -/
theorem angleABC_range_degenerate (Ax Ay Bx By Cx Cy : ℝ) :
    (0 ≤ angleABC Ax Ay Bx By Cx Cy ∧ angleABC Ax Ay Bx By Cx Cy ≤ 180) ∧
      ((Ax = Bx ∧ Ay = By) ∨ (Cx = Bx ∧ Cy = By) →
        angleABC Ax Ay Bx By Cx Cy = 180) := by
  constructor
  · simp only [angleABC]
    split_ifs with h
    · norm_num
    · exact arccosDeg_bounds _
  · intro hdeg
    have hzero : Real.sqrt ((Ax - Bx) ^ 2 + (Ay - By) ^ 2) = 0 ∨
        Real.sqrt ((Cx - Bx) ^ 2 + (Cy - By) ^ 2) = 0 := by
      rcases hdeg with ⟨h1, h2⟩ | ⟨h1, h2⟩
      · left
        rw [h1, h2]
        simp
      · right
        rw [h1, h2]
        simp
    simp only [angleABC]
    rw [if_pos hzero]

/-- Witness for C6 at a point whose first ray is zero-length. -/
theorem angleABC_range_degenerate_witness :
    (0 ≤ angleABC 1 2 1 2 5 7 ∧ angleABC 1 2 1 2 5 7 ≤ 180) ∧
      angleABC 1 2 1 2 5 7 = 180 :=
  ⟨(angleABC_range_degenerate 1 2 1 2 5 7).1,
   (angleABC_range_degenerate 1 2 1 2 5 7).2 (Or.inl ⟨rfl, rfl⟩)⟩

/-- Claim C5: with all five required keypoints present, the issue flags are
exactly the threshold comparisons — `headTilt ↔ |leftEar.y − rightEar.y| >
15`, `shouldersUneven ↔ |leftShoulder.y − rightShoulder.y| > 20`,
`headTooLow ↔ distance(nose, midShoulder) < 0.6·shoulderWidth`,
`headTooForward ↔ that distance > 1.2·shoulderWidth`; in particular a
shoulder-height difference of 25 trips `shouldersUneven` and one of 15
does not. -/
theorem analyzePosture_thresholds :
    (∀ (keypoints : List Keypoint) (nose leftShoulder rightShoulder leftEar rightEar : Keypoint),
      findKp keypoints "nose" = some nose →
      findKp keypoints "left_shoulder" = some leftShoulder →
      findKp keypoints "right_shoulder" = some rightShoulder →
      findKp keypoints "left_ear" = some leftEar →
      findKp keypoints "right_ear" = some rightEar →
      ((analyzePosture keypoints).headTilt ↔ |leftEar.y - rightEar.y| > 15) ∧
      ((analyzePosture keypoints).shouldersUneven ↔
        |leftShoulder.y - rightShoulder.y| > 20) ∧
      ((analyzePosture keypoints).headTooLow ↔
        distance2D nose.x nose.y ((leftShoulder.x + rightShoulder.x) / 2)
            ((leftShoulder.y + rightShoulder.y) / 2) <
          0.6 * distance2D leftShoulder.x leftShoulder.y rightShoulder.x rightShoulder.y) ∧
      ((analyzePosture keypoints).headTooForward ↔
        distance2D nose.x nose.y ((leftShoulder.x + rightShoulder.x) / 2)
            ((leftShoulder.y + rightShoulder.y) / 2) >
          1.2 * distance2D leftShoulder.x leftShoulder.y rightShoulder.x rightShoulder.y)) ∧
    (analyzePosture exDiff25).shouldersUneven ∧
    ¬ (analyzePosture exDiff15).shouldersUneven := by
  refine ⟨?_, ?_, ?_⟩
  · intro keypoints nose leftShoulder rightShoulder leftEar rightEar h1 h2 h3 h4 h5
    unfold analyzePosture
    rw [h1, h2, h3, h4, h5]
    refine ⟨Iff.rfl, Iff.rfl, ?_, ?_⟩
    · rw [mul_comm (0.6 : ℝ)]
    · rw [mul_comm (1.2 : ℝ)]
  · show |(0 : ℝ) - 25| > 20
    norm_num
  · show ¬ |(0 : ℝ) - 15| > 20
    norm_num

/-- Witness for C5: the threshold characterisation applied to the concrete
difference-25 frame, together with both example evaluations. -/
theorem analyzePosture_thresholds_witness :
    ((analyzePosture exDiff25).shouldersUneven ↔ |(0 : ℝ) - 25| > 20) ∧
      (analyzePosture exDiff25).shouldersUneven ∧
      ¬ (analyzePosture exDiff15).shouldersUneven :=
  ⟨(analyzePosture_thresholds.1 exDiff25 ⟨"nose", 50, 80, none⟩
      ⟨"left_shoulder", 0, 0, none⟩ ⟨"right_shoulder", 100, 25, none⟩
      ⟨"left_ear", 30, 80, none⟩ ⟨"right_ear", 70, 80, none⟩
      rfl rfl rfl rfl rfl).2.1,
   analyzePosture_thresholds.2.1, analyzePosture_thresholds.2.2⟩

/-- Counterexample to claim C3 as stated: with coincident shoulders the
ratio entry of the feature vector is the non-finite result of dividing by
zero (modelled `none`), not the value `0` the claim promises. -/
theorem ratio_unguarded_at_zero_width :
    (extractFeatures exCoincident).get? 1 = some none ∧
      (extractFeatures exCoincident).get? 1 ≠ some (some (0 : ℝ)) := by
  have e1 : findKp exCoincident "nose" = some ⟨"nose", 3, 4, none⟩ := rfl
  have e2 : findKp exCoincident "left_shoulder" =
      some ⟨"left_shoulder", 0, 0, none⟩ := rfl
  have e3 : findKp exCoincident "right_shoulder" =
      some ⟨"right_shoulder", 0, 0, none⟩ := rfl
  have e4 : findKp exCoincident "left_ear" = some ⟨"left_ear", 1, 1, none⟩ := rfl
  have e5 : findKp exCoincident "right_ear" = some ⟨"right_ear", 2, 2, none⟩ := rfl
  have hw : distance2D (0 : ℝ) 0 0 0 = 0 := by
    simp [distance2D]
  have hmain : (extractFeatures exCoincident).get? 1 = some none := by
    unfold extractFeatures
    rw [e1, e2, e3, e4, e5]
    simp only [List.get?_cons_succ, List.get?_cons_zero, Option.some.injEq]
    unfold jsDiv
    rw [if_pos hw]
  exact ⟨hmain, by rw [hmain]; simp⟩

/-- Claim C3, amended: with all five keypoints present the ratio entry is
the unguarded JS division `noseToShoulderMidDist / shoulderWidth`; when the
shoulder width is zero it is non-finite (`Infinity`/`NaN`, modelled
`none`), not `0`. -/
theorem extractFeatures_ratio_division
    (keypoints : List Keypoint)
    (nose leftShoulder rightShoulder leftEar rightEar : Keypoint)
    (h1 : findKp keypoints "nose" = some nose)
    (h2 : findKp keypoints "left_shoulder" = some leftShoulder)
    (h3 : findKp keypoints "right_shoulder" = some rightShoulder)
    (h4 : findKp keypoints "left_ear" = some leftEar)
    (h5 : findKp keypoints "right_ear" = some rightEar) :
    (extractFeatures keypoints).get? 1 =
      some (jsDiv
        (distance2D nose.x nose.y ((leftShoulder.x + rightShoulder.x) / 2)
          ((leftShoulder.y + rightShoulder.y) / 2))
        (distance2D leftShoulder.x leftShoulder.y rightShoulder.x rightShoulder.y)) ∧
    (distance2D leftShoulder.x leftShoulder.y rightShoulder.x rightShoulder.y = 0 →
      (extractFeatures keypoints).get? 1 = some none) := by
  have hfst : (extractFeatures keypoints).get? 1 =
      some (jsDiv
        (distance2D nose.x nose.y ((leftShoulder.x + rightShoulder.x) / 2)
          ((leftShoulder.y + rightShoulder.y) / 2))
        (distance2D leftShoulder.x leftShoulder.y rightShoulder.x rightShoulder.y)) := by
    unfold extractFeatures
    rw [h1, h2, h3, h4, h5]
    rfl
  refine ⟨hfst, fun hz => ?_⟩
  rw [hfst]
  unfold jsDiv
  rw [if_pos hz]

/-- Witness for the amended C3 on the coincident-shoulders frame. -/
theorem extractFeatures_ratio_division_witness :
    (extractFeatures exCoincident).get? 1 =
      some (jsDiv
        (distance2D (3 : ℝ) 4 (((0 : ℝ) + 0) / 2) (((0 : ℝ) + 0) / 2))
        (distance2D (0 : ℝ) 0 0 0)) :=
  (extractFeatures_ratio_division exCoincident ⟨"nose", 3, 4, none⟩
    ⟨"left_shoulder", 0, 0, none⟩ ⟨"right_shoulder", 0, 0, none⟩
    ⟨"left_ear", 1, 1, none⟩ ⟨"right_ear", 2, 2, none⟩
    rfl rfl rfl rfl rfl).1

/-- Counterexample to claim C2 as stated: a scoring model that respects its
`[0, 1]` output contract but returns `1` on the zero sentinel makes the
persisted score of a keypoint-free frame `100`, not the promised `0`. -/
theorem computeScore_missing_keypoints_not_zero :
    (∀ fv : List (Option ℝ),
      0 ≤ (fun _ : List (Option ℝ) => (1 : ℝ)) fv ∧
        (fun _ : List (Option ℝ) => (1 : ℝ)) fv ≤ 1) ∧
      computeScore (fun _ => 1) [] = 100 ∧ (100 : ℤ) ≠ 0 := by
  refine ⟨fun fv => by norm_num, ?_, by norm_num⟩
  unfold computeScore jsRound
  rw [show ((1 : ℝ) * 100) = ((100 : ℤ) : ℝ) by norm_num, round_intCast]

/-- Claim C2, amended: the score handed to persistence is
`round(100 · predict(features))` with no clamping; it lies in `[0, 100]`
whenever the model's output respects its contractual `[0, 1]` range, and
when any required keypoint is missing the zero sentinel vector is fed to
the model unchanged — the score is `round(100 · predict(0⃗))`, not
necessarily `0`. -/
theorem computeScore_bounds_and_sentinel :
    (∀ (predict : List (Option ℝ) → ℝ) (keypoints : List Keypoint),
      0 ≤ predict (extractFeatures keypoints) →
      predict (extractFeatures keypoints) ≤ 1 →
      0 ≤ computeScore predict keypoints ∧ computeScore predict keypoints ≤ 100) ∧
    (∀ (predict : List (Option ℝ) → ℝ) (keypoints : List Keypoint),
      (findKp keypoints "nose" = none ∨
        findKp keypoints "left_shoulder" = none ∨
        findKp keypoints "right_shoulder" = none ∨
        findKp keypoints "left_ear" = none ∨
        findKp keypoints "right_ear" = none) →
      extractFeatures keypoints =
        [some 0, some 0, some 0, some 0, some 0, some 0, some 0] ∧
      computeScore predict keypoints =
        jsRound (predict [some 0, some 0, some 0, some 0, some 0, some 0, some 0] * 100)) := by
  constructor
  · intro predict keypoints h0 h1
    unfold computeScore jsRound
    constructor
    · rw [round_eq]
      have : (0 : ℝ) ≤ predict (extractFeatures keypoints) * 100 + 1 / 2 := by nlinarith
      exact Int.floor_nonneg.mpr (by linarith)
    · rw [round_eq]
      have hle : predict (extractFeatures keypoints) * 100 + 1 / 2 ≤ 100 + 1 / 2 := by
        nlinarith
      calc ⌊predict (extractFeatures keypoints) * 100 + 1 / 2⌋
          ≤ ⌊(100 : ℝ) + 1 / 2⌋ := Int.floor_le_floor hle
        _ = 100 := by
            rw [Int.floor_eq_iff]
            constructor <;> norm_num
  · intro predict keypoints h
    have hsent : extractFeatures keypoints =
        [some 0, some 0, some 0, some 0, some 0, some 0, some 0] := by
      unfold extractFeatures
      cases h1 : findKp keypoints "nose" with
      | none => rfl
      | some nose =>
        cases h2 : findKp keypoints "left_shoulder" with
        | none => rfl
        | some leftShoulder =>
          cases h3 : findKp keypoints "right_shoulder" with
          | none => rfl
          | some rightShoulder =>
            cases h4 : findKp keypoints "left_ear" with
            | none => rfl
            | some leftEar =>
              cases h5 : findKp keypoints "right_ear" with
              | none => rfl
              | some rightEar =>
                rcases h with h | h | h | h | h
                · exact Option.noConfusion (h1.symm.trans h)
                · exact Option.noConfusion (h2.symm.trans h)
                · exact Option.noConfusion (h3.symm.trans h)
                · exact Option.noConfusion (h4.symm.trans h)
                · exact Option.noConfusion (h5.symm.trans h)
    exact ⟨hsent, by unfold computeScore; rw [hsent]⟩

/-- Witness for the amended C2: the constant-1 model on a keypoint-free
frame satisfies its contract, the bounds hold, and the sentinel is fed to
the model unchanged. -/
theorem computeScore_bounds_and_sentinel_witness :
    (0 ≤ computeScore (fun _ => 1) [] ∧ computeScore (fun _ => 1) [] ≤ 100) ∧
      extractFeatures [] =
        [some 0, some 0, some 0, some 0, some 0, some 0, some 0] ∧
      computeScore (fun _ => 1) [] =
        jsRound ((fun _ : List (Option ℝ) => (1 : ℝ))
          [some 0, some 0, some 0, some 0, some 0, some 0, some 0] * 100) :=
  ⟨computeScore_bounds_and_sentinel.1 (fun _ => 1) [] (by norm_num) (by norm_num),
   computeScore_bounds_and_sentinel.2 (fun _ => 1) [] (Or.inl rfl)⟩

/-- Counterexample to claim C4 as stated: in an active session whose live
score is still unset, a failed measurement insert leaves the live score at
`none` instead of updating it to the just-computed score `80` — the live
update sits after the insert inside the `try` block, so the catch skips
it. -/
theorem failed_persist_does_not_update_live :
    (saveMeasurement exActiveState (some "u1") false 0 80
        (extractPositions []) (analyzePosture [])).currentScore = none ∧
      (saveMeasurement exActiveState (some "u1") false 0 80
          (extractPositions []) (analyzePosture [])).currentScore ≠ some 80 := by
  constructor
  · rfl
  · intro h
    exact Option.noConfusion (h.symm.trans rfl)

/-- Claim C4, amended: when the measurement insert fails the failure is
logged and the live score and issue list are left at their previous
values (only the error log changes); the live state is updated to the
just-computed values only when the insert succeeds. -/
theorem saveMeasurement_error_behavior
    (s : AppState) (sid uid : String) (insertOk : Bool) (now score : ℤ)
    (positions : PositionData) (issues : IssueReport)
    (hsid : s.sessionId = some sid) :
    (insertOk = false →
      saveMeasurement s (some uid) insertOk now score positions issues =
        { s with errorLog := s.errorLog ++ ["Error saving measurement"] }) ∧
    (insertOk = true →
      saveMeasurement s (some uid) insertOk now score positions issues =
        { s with
          measurements :=
            s.measurements ++ [mkMeasurement sid uid now score positions issues]
          currentScore := some score
          postureIssues := issueNames issues }) := by
  constructor
  · intro h
    unfold saveMeasurement
    rw [hsid, h]
    rfl
  · intro h
    unfold saveMeasurement
    rw [hsid, h]
    rfl

/-- Witness for the amended C4: a concrete failed insert only extends the
error log. -/
theorem saveMeasurement_error_behavior_witness :
    saveMeasurement exActiveState (some "u1") false 0 80
        (extractPositions []) (analyzePosture []) =
      { exActiveState with
        errorLog := exActiveState.errorLog ++ ["Error saving measurement"] } :=
  (saveMeasurement_error_behavior exActiveState "s1" "u1" false 0 80
    (extractPositions []) (analyzePosture []) rfl).1 rfl

/-- Counterexample to claim C1 as stated: starting from an active session
with an empty store, two consecutive frame ticks at times 0 ms and 16 ms
both persist a measurement for the same session — the code has no
elapsed-time check, so persisted measurements are not 1000 ms apart. -/
theorem consecutive_ticks_persist_under_1000ms :
    ((detectPoseTick (fun _ => 0)
        (detectPoseTick (fun _ => 0) exActiveState (some []) (some "u1") true 0)
        (some []) (some "u1") true 16).measurements.map
          (fun m => (m.sessionId, m.createdAt))) = [("s1", 0), ("s1", 16)] ∧
      (16 : ℤ) - 0 < 1000 := by
  constructor
  · rfl
  · norm_num

/-- Claim C1, amended: while a session is active a new measurement is
persisted on every frame tick on which a pose is detected, the user is
available and the insert succeeds, stamped with that tick's time,
regardless of how little time has passed since the last persisted
measurement — so persisted measurements can be one frame (≈16 ms) apart. -/
theorem detectPoseTick_persists_every_active_frame
    (predict : List (Option ℝ) → ℝ) (s : AppState) (sid uid : String)
    (keypoints : List Keypoint) (now : ℤ)
    (hA : s.isAnalyzing = true) (hS : s.sessionId = some sid) :
    (detectPoseTick predict s (some keypoints) (some uid) true now).measurements =
      s.measurements ++
        [mkMeasurement sid uid now (computeScore predict keypoints)
          (extractPositions keypoints) (analyzePosture keypoints)] := by
  unfold detectPoseTick
  rw [hA]
  simp only [if_true]
  unfold saveMeasurement
  rw [hS]
  rfl

/-- Witness for the amended C1 at a concrete active state and tick. -/
theorem detectPoseTick_persists_every_active_frame_witness :
    (detectPoseTick (fun _ => 0) exActiveState (some []) (some "u1") true 0).measurements =
      exActiveState.measurements ++
        [mkMeasurement "s1" "u1" 0 (computeScore (fun _ => 0) [])
          (extractPositions []) (analyzePosture [])] :=
  detectPoseTick_persists_every_active_frame (fun _ => 0) exActiveState "s1" "u1"
    [] 0 rfl rfl

/-- A date has a bucket in the accumulator exactly when it is one of the
accumulated keys. -/
theorem any_key_iff (acc : List (String × List ℤ)) (d : String) :
    acc.any (fun p => p.1 == d) = true ↔ d ∈ acc.map Prod.fst := by
  rw [List.any_eq_true]
  constructor
  · rintro ⟨x, hx, hb⟩
    exact List.mem_map.mpr ⟨x, hx, eq_of_beq hb⟩
  · intro hm
    obtain ⟨x, hx, hval⟩ := List.mem_map.mp hm
    refine ⟨x, hx, ?_⟩
    rw [hval]
    exact beq_self_eq_true d

/-- Lemma: `addScore` keeps the key list unchanged when the date already has a
bucket and appends the date otherwise. -/
theorem addScore_keys (acc : List (String × List ℤ)) (d : String) (s' : ℤ) :
    (addScore acc d s').map Prod.fst =
      if acc.any (fun p => p.1 == d) = true then acc.map Prod.fst
      else acc.map Prod.fst ++ [d] := by
  unfold addScore
  split_ifs with h
  · rw [List.map_map]
    exact List.map_congr_left (fun a _ => by
      by_cases hc : a.1 = d <;> simp [hc])
  · simp

/-- Lemma: `addScore` preserves distinctness of the bucket keys. -/
theorem addScore_nodupKeys (acc : List (String × List ℤ)) (d : String) (s' : ℤ)
    (h : (acc.map Prod.fst).Nodup) :
    ((addScore acc d s').map Prod.fst).Nodup := by
  rw [addScore_keys]
  split_ifs with ha
  · exact h
  · rw [List.nodup_append, List.disjoint_singleton]
    exact ⟨h, List.nodup_singleton d, fun hmem => ha ((any_key_iff acc d).mpr hmem)⟩

/-- Key membership after one `addScore` step. -/
theorem mem_addScore_keys (acc : List (String × List ℤ)) (d : String) (s' : ℤ)
    (d' : String) :
    d' ∈ (addScore acc d s').map Prod.fst ↔ d' ∈ acc.map Prod.fst ∨ d' = d := by
  rw [addScore_keys]
  split_ifs with h
  · have hd : d ∈ acc.map Prod.fst := (any_key_iff acc d).mp h
    constructor
    · exact Or.inl
    · rintro (hm | rfl)
      · exact hm
      · exact hd
  · simp

/-- The grouped association list built by `groupByDate` has pairwise
distinct keys, its keys are exactly the dates occurring in the input, and
the bucket of each key holds exactly the scores of that date's
measurements, in input order. -/
theorem groupByDate_spec (ms : List (String × ℤ)) :
    ((groupByDate ms).map Prod.fst).Nodup ∧
    (∀ d : String, d ∈ (groupByDate ms).map Prod.fst ↔ d ∈ ms.map Prod.fst) ∧
    (∀ p ∈ groupByDate ms,
      p.2 = (ms.filter (fun m => m.1 == p.1)).map Prod.snd) := by
  induction ms using List.reverseRecOn with
  | nil => simp [groupByDate]
  | append_singleton ms m ih =>
    obtain ⟨ihN, ihK, ihB⟩ := ih
    have hstep : groupByDate (ms ++ [m]) = addScore (groupByDate ms) m.1 m.2 := by
      simp [groupByDate, List.foldl_append]
    refine ⟨?_, ?_, ?_⟩
    · rw [hstep]
      exact addScore_nodupKeys _ _ _ ihN
    · intro d
      rw [hstep, mem_addScore_keys, List.map_append, List.mem_append, ihK d]
      simp
    · intro p hp
      rw [hstep] at hp
      rw [List.filter_append, List.map_append]
      unfold addScore at hp
      by_cases h : (groupByDate ms).any (fun q => q.1 == m.1) = true
      · rw [if_pos h] at hp
        obtain ⟨q, hq, rfl⟩ := List.mem_map.mp hp
        by_cases hb : (q.1 == m.1) = true
        · have hq1 : q.1 = m.1 := eq_of_beq hb
          simp only [hb, if_true]
          show q.2 ++ [m.2] =
            (ms.filter (fun x => x.1 == q.1)).map Prod.snd ++
              ([m].filter (fun x => x.1 == q.1)).map Prod.snd
          rw [← ihB q hq, hq1]
          simp
        · have hm1 : (m.1 == q.1) = false := by
            rw [beq_eq_false_iff_ne]
            intro hc
            rw [hc] at hb
            exact hb (beq_self_eq_true q.1)
          simp only [hb, if_false]
          show q.2 =
            (ms.filter (fun x => x.1 == q.1)).map Prod.snd ++
              ([m].filter (fun x => x.1 == q.1)).map Prod.snd
          rw [← ihB q hq]
          simp [List.filter_cons, hm1]
      · rw [if_neg h] at hp
        rcases List.mem_append.mp hp with hq | hnew
        · have hm1 : (m.1 == p.1) = false := by
            rw [beq_eq_false_iff_ne]
            intro hc
            refine h ((List.any_eq_true).mpr ⟨p, hq, ?_⟩)
            rw [← hc]
            exact beq_self_eq_true m.1
          rw [← ihB p hq]
          simp [List.filter_cons, hm1]
        · have hpv : p = (m.1, [m.2]) := by simpa using hnew
          subst hpv
          have hnotin : (m.1 : String) ∉ ms.map Prod.fst := by
            intro hc
            exact h ((any_key_iff _ _).mpr ((ihK m.1).mpr hc))
          have hfil : ms.filter (fun x => x.1 == m.1) = [] := by
            rw [List.filter_eq_nil_iff]
            intro a ha hb
            exact hnotin (List.mem_map.mpr ⟨a, ha, eq_of_beq hb⟩)
          show [m.2] =
            (ms.filter (fun x => x.1 == m.1)).map Prod.snd ++
              ([m].filter (fun x => x.1 == m.1)).map Prod.snd
          rw [hfil]
          simp

/-- Claim C7: `fetchStats` yields exactly one `DailyStat` per distinct
date occurring in the measurement list; its `averageScore` is the rounded
arithmetic mean of that date's scores and its `sessionCount` is the number
of measurements with that date (not the number of distinct sessions); on
the example list — scores 80 and 60 on `D1`, score 100 on `D2` — it yields
`{date D1, averageScore 70, sessionCount 2}` and
`{date D2, averageScore 100, sessionCount 1}`. -/
theorem fetchStats_daily_aggregation (ms : List (String × ℤ)) :
    ((fetchStats ms).map StatsData.date).Nodup ∧
    (∀ d : String,
      d ∈ (fetchStats ms).map StatsData.date ↔ d ∈ ms.map Prod.fst) ∧
    (∀ st ∈ fetchStats ms,
      st.sessionCount = (ms.filter (fun m => m.1 == st.date)).length ∧
      st.averageScore =
        round ((((ms.filter (fun m => m.1 == st.date)).map Prod.snd).sum : ℚ) /
          ((ms.filter (fun m => m.1 == st.date)).length : ℚ))) ∧
    fetchStats exMs =
      [⟨"D1", 70, 2⟩, ⟨"D2", 100, 1⟩] := by
  obtain ⟨hN, hK, hB⟩ := groupByDate_spec ms
  have hdates : (fetchStats ms).map StatsData.date =
      (groupByDate ms).map Prod.fst := by
    unfold fetchStats
    rw [List.map_map]
    rfl
  refine ⟨?_, ?_, ?_, ?_⟩
  · rw [hdates]
    exact hN
  · intro d
    rw [hdates]
    exact hK d
  · intro st hst
    obtain ⟨p, hp, rfl⟩ := List.mem_map.mp hst
    have hb := hB p hp
    constructor
    · show p.2.length = (ms.filter (fun m => m.1 == p.1)).length
      rw [hb, List.length_map]
    · show round ((p.2.sum : ℚ) / (p.2.length : ℚ)) =
        round ((((ms.filter (fun m => m.1 == p.1)).map Prod.snd).sum : ℚ) /
          ((ms.filter (fun m => m.1 == p.1)).length : ℚ))
      rw [hb, List.length_map]
  · have hg : groupByDate exMs = [("D1", [80, 60]), ("D2", [100])] := by
      simp [groupByDate, exMs, addScore]
    unfold fetchStats
    rw [hg]
    simp only [List.map_cons, List.map_nil]
    norm_num [round_eq]

/-- Witness for C7: the per-bucket characterisation applied to the `D1`
stat of the example list. -/
theorem fetchStats_daily_aggregation_witness :
    (⟨"D1", 70, 2⟩ : StatsData).sessionCount =
        (exMs.filter (fun m => m.1 == (⟨"D1", 70, 2⟩ : StatsData).date)).length ∧
      (⟨"D1", 70, 2⟩ : StatsData).averageScore =
        round ((((exMs.filter
            (fun m => m.1 == (⟨"D1", 70, 2⟩ : StatsData).date)).map Prod.snd).sum : ℚ) /
          ((exMs.filter
            (fun m => m.1 == (⟨"D1", 70, 2⟩ : StatsData).date)).length : ℚ)) :=
  (fetchStats_daily_aggregation exMs).2.2.1 ⟨"D1", 70, 2⟩
    (by rw [(fetchStats_daily_aggregation exMs).2.2.2]; simp)

end PosturePal
